import Mathlib

/-!
Shallow embedding of the `meta-ads-cloudrun` pipeline (`src/main.py`, with
`src/meta_ads_cloudrun/main.py` an earlier near-duplicate of the same design).

The embedding models:
  * JSON values reaching the pipeline (`JVal`), Python's view of a fetched
    record (`RawRecord`, `pyGet` — `dict.get` collapses an absent key and an
    explicit JSON `null` to Python `None`),
  * the per-column coercers `to_int`, `to_float`, `to_str` (Python
    `int(float(v))` / `float(v)` / `str(v)` with the `try/except` swallowing),
  * the row normalizer `build_bq_rows`,
  * the window resolver `iso_date` / `compute_window`,
  * the paginated fetcher `meta_get` / `fetch_campaign_daily` over an abstract
    HTTP world `String → Params → Response`, with explicit fuel standing for
    the unbounded `while True` loop,
  * the chunked loader `insert_into_bigquery` over an abstract sink, and
  * the driver `main`.

Python's `float(s)` on strings is modelled by `pyFloat`, an exact rational
parser of the decimal-literal fragment (sign, digits, optional fraction,
optional exponent, surrounding whitespace); binary-float rounding is not
modelled (no claim depends on it), and the exotic literals `inf`/`nan`/
underscore separators are treated as unparseable.
-/

/-- A JSON scalar as it appears in an upstream record: `null`, a string, or a
number (kept exact as a rational). -/
inductive JVal where
  | null : JVal
  | str : String → JVal
  | num : ℚ → JVal
deriving DecidableEq

/-- A Python value obtained from `record.get(key)` once `None` has been split
off: a string or a number. -/
inductive PyPrim where
  | str : String → PyPrim
  | num : ℚ → PyPrim
deriving DecidableEq

/-- A raw upstream record: one JSON object, as a key/value list. -/
abbrev RawRecord := List (String × JVal)

/-- First value bound to `key`, as in a Python dict (keys are unique upstream). -/
def lookupJ : RawRecord → String → Option JVal
  | [], _ => none
  | (k, v) :: r, key => if k = key then some v else lookupJ r key

/-- `r.get(key)` in Python: an absent key and an explicit JSON `null` both
come back as `None` (here `none`); strings and numbers come back as such. -/
def pyGet (r : RawRecord) (key : String) : Option PyPrim :=
  match lookupJ r key with
  | none => none
  | some .null => none
  | some (.str s) => some (.str s)
  | some (.num q) => some (.num q)

/-- Decimal digit test (`'0'`–`'9'`). -/
def isDigitCh (c : Char) : Bool := ('0' ≤ c) && (c ≤ '9')

/-- Value of a digit string, most significant first. -/
def digitsToNat (cs : List Char) : ℕ :=
  cs.foldl (fun a c => 10 * a + (c.toNat - 48)) 0

/-- Exponent suffix of a Python float literal: empty, or `e`/`E`, an optional
sign, and at least one digit. -/
def parseExp : List Char → Option ℤ
  | [] => some 0
  | c :: cs =>
    if c = 'e' ∨ c = 'E' then
      match cs with
      | '-' :: ds =>
        if ds ≠ [] ∧ ds.all isDigitCh then some (-(digitsToNat ds : ℤ)) else none
      | '+' :: ds =>
        if ds ≠ [] ∧ ds.all isDigitCh then some (digitsToNat ds : ℤ) else none
      | ds =>
        if ds ≠ [] ∧ ds.all isDigitCh then some (digitsToNat ds : ℤ) else none
    else none

/-- Mantissa and exponent of a Python float literal:
`[sign] digits [. digits] [exponent]` with at least one mantissa digit. The
literal's exact value `±(ip.fp) · 10^e` is assembled as one reduced rational
(integer numerator and denominator, so the value is kernel-computable). -/
def pyFloatCore (cs : List Char) : Option ℚ :=
  let signSplit : Bool × List Char :=
    match cs with
    | '-' :: r => (true, r)
    | '+' :: r => (false, r)
    | r => (false, r)
  let neg := signSplit.1
  let cs1 := signSplit.2
  let ip := cs1.takeWhile isDigitCh
  let cs2 := cs1.dropWhile isDigitCh
  let dotSplit : List Char × List Char :=
    match cs2 with
    | '.' :: r => (r.takeWhile isDigitCh, r.dropWhile isDigitCh)
    | r => ([], r)
  let fp := dotSplit.1
  let cs3 := if cs2.head? = some '.' then dotSplit.2 else cs2
  if ip = [] ∧ fp = [] then none
  else
    match parseExp cs3 with
    | none => none
    | some e =>
      let mantNum : ℤ := (digitsToNat ip : ℤ) * (10 : ℤ) ^ fp.length + (digitsToNat fp : ℤ)
      let num : ℤ := if 0 ≤ e then mantNum * (10 : ℤ) ^ e.toNat else mantNum
      let den : ℕ := if 0 ≤ e then (10 : ℕ) ^ fp.length
                     else (10 : ℕ) ^ fp.length * (10 : ℕ) ^ (-e).toNat
      some (mkRat (if neg then -num else num) den)

/-- ASCII whitespace (Python `str.strip()` also strips some unicode spaces;
the claims only exercise ASCII). -/
def isSpaceCh (c : Char) : Bool := c = ' ' ∨ c = '\t' ∨ c = '\n' ∨ c = '\r'

/-- Strip leading and trailing whitespace. -/
def trimChars (cs : List Char) : List Char :=
  ((cs.dropWhile isSpaceCh).reverse.dropWhile isSpaceCh).reverse

/-- Python `float(s)` on a string, modelled exactly over ℚ for the
decimal-literal fragment (leading/trailing whitespace stripped); any other
string fails (→ `none`, standing for the raised `ValueError`). -/
def pyFloat (s : String) : Option ℚ := pyFloatCore (trimChars s.toList)

/-- Python `float(v)` on a fetched value: parse strings, pass numbers through. -/
def pyFloatOf : PyPrim → Option ℚ
  | .str s => pyFloat s
  | .num q => some q

/-- Python `int(q)` on a finite float value: truncation toward zero. -/
def truncQ (q : ℚ) : ℤ := Int.tdiv q.num q.den

/-- `to_int` of `src/main.py`: `None`/`""` → `None`; otherwise
`int(float(v))`, with any coercion failure swallowed to `None`. -/
def to_int (v : Option PyPrim) : Option ℤ :=
  match v with
  | none => none
  | some p => if p = .str "" then none else (pyFloatOf p).map truncQ

/-- `to_float` of `src/main.py`: `None`/`""` → `None`; otherwise `float(v)`,
with any coercion failure swallowed to `None`. -/
def to_float (v : Option PyPrim) : Option ℚ :=
  match v with
  | none => none
  | some p => if p = .str "" then none else pyFloatOf p

/-- Python `str(v)` on a fetched value (number rendering is a modelling
choice; it is never the empty string, which is all the code depends on). -/
def pyStr : PyPrim → String
  | .str s => s
  | .num q => toString q

/-- `to_str` of `src/main.py`: `None` → `None`; otherwise `str(v)`, with the
empty string mapped to `None`. -/
def to_str (v : Option PyPrim) : Option String :=
  match v with
  | none => none
  | some p => if pyStr p = "" then none else some (pyStr p)

/-- One JSON scalar as rendered by `json.dumps` (string escaping is not
modelled; no claim inspects the serialized audit column). -/
def dumpJVal : JVal → String
  | .null => "null"
  | .str s => "\"" ++ s ++ "\""
  | .num q => toString q

/-- `json.dumps(r)` for a raw record. -/
def dumpRecord (r : RawRecord) : String :=
  "\x7b" ++ String.intercalate ", " (r.map fun kv => "\"" ++ kv.1 ++ "\": " ++ dumpJVal kv.2) ++ "\x7d"

/-- The ingestion instant captured once per run by the driver:
`load_ts.isoformat()` and `load_ts.date().isoformat()`. -/
structure LoadInstant where
  iso : String
  dateIso : String
deriving DecidableEq

/-- One normalized output row, with the exact column set of `build_bq_rows`.
`date_start`/`date_stop` hold the raw `r.get(...)` value (the code does not
coerce them). -/
structure BqRow where
  load_timestamp : String
  load_date : String
  date_start : Option PyPrim
  date_stop : Option PyPrim
  account_id : Option String
  campaign_id : Option String
  campaign_name : Option String
  objective : Option String
  publisher_platform : Option String
  reach : Option ℤ
  impressions : Option ℤ
  clicks : Option ℤ
  spend : Option String
  ctr : Option ℚ
  cpc : Option String
  cpm : Option String
  meta_row_json : String
deriving DecidableEq

/-- The loop body of `build_bq_rows`: normalize one raw record. -/
def buildRow (load_ts : LoadInstant) (r : RawRecord) : BqRow where
  load_timestamp := load_ts.iso
  load_date := load_ts.dateIso
  date_start := pyGet r "date_start"
  date_stop := pyGet r "date_stop"
  account_id := to_str (pyGet r "account_id")
  campaign_id := to_str (pyGet r "campaign_id")
  campaign_name := to_str (pyGet r "campaign_name")
  objective := to_str (pyGet r "objective")
  publisher_platform := to_str (pyGet r "publisher_platform")
  reach := to_int (pyGet r "reach")
  impressions := to_int (pyGet r "impressions")
  clicks := to_int (pyGet r "clicks")
  spend := to_str (pyGet r "spend")
  ctr := to_float (pyGet r "ctr")
  cpc := to_str (pyGet r "cpc")
  cpm := to_str (pyGet r "cpm")
  meta_row_json := dumpRecord r

/-- `build_bq_rows` of `src/main.py`: append one normalized row per raw
record, in order. -/
def build_bq_rows (rows : List RawRecord) (load_ts : LoadInstant) : List BqRow :=
  rows.foldl (fun out r => out ++ [buildRow load_ts r]) []

/-- The character-position test of `iso_date`: length exactly 10 with a
hyphen at indices 4 and 7 (this is all the code checks). -/
def posCheck (s : String) : Bool :=
  (s.length = 10) && (s.toList.getD 4 ' ' = '-') && (s.toList.getD 7 ' ' = '-')

/-- `iso_date` of `src/main.py`: return `s` unchanged if it passes the
position test, otherwise raise `ValueError` (the spec's `ValidationError`). -/
def iso_date (s : String) : Except String String :=
  if posCheck s then .ok s
  else .error ("Expected date in YYYY-MM-DD format, got: " ++ s)

/-- Modelled from the spec's words for claim C4 only: a syntactically valid
calendar date is four digits, hyphen, two digits, hyphen, two digits (exact
length 10). The source's `iso_date` is compared against this. -/
def specValidDate (s : String) : Bool :=
  match s.toList with
  | [y1, y2, y3, y4, h1, m1, m2, h2, d1, d2] =>
    isDigitCh y1 && isDigitCh y2 && isDigitCh y3 && isDigitCh y4 &&
    (h1 = '-') && isDigitCh m1 && isDigitCh m2 &&
    (h2 = '-') && isDigitCh d1 && isDigitCh d2
  | _ => false

/-- Gregorian date of an epoch-day count (days since 1970-01-01), the
`days-to-civil` algorithm underlying Python's `datetime.date`. Returns
`(year, month, day)`. -/
def civilFromDays (days : ℤ) : ℤ × ℕ × ℕ :=
  let z : ℤ := days + 719468
  let era : ℤ := Int.fdiv z 146097
  let doe : ℕ := (z - era * 146097).toNat
  let yoe : ℕ := (doe - doe / 1460 + doe / 36524 - doe / 146096) / 365
  let y : ℤ := (yoe : ℤ) + era * 400
  let doy : ℕ := doe - (365 * yoe + yoe / 4 - yoe / 100)
  let mp : ℕ := (5 * doy + 2) / 153
  let d : ℕ := doy - (153 * mp + 2) / 5 + 1
  let m : ℕ := if mp < 10 then mp + 3 else mp - 9
  (if mp < 10 then y else y + 1, m, d)

/-- Zero-pad a number to two digits. -/
def pad2 (n : ℕ) : String :=
  if n < 10 then "0" ++ toString n else toString n

/-- Zero-pad a year to four digits (years of interest are positive). -/
def pad4 (y : ℤ) : String :=
  let s := toString y.toNat
  if s.length < 4 then String.mk (List.replicate (4 - s.length) '0') ++ s else s

/-- `date.isoformat()` for an epoch-day count: `YYYY-MM-DD`. -/
def isoOfEpochDay (days : ℤ) : String :=
  let c := civilFromDays days
  pad4 c.1 ++ "-" ++ pad2 c.2.1 ++ "-" ++ pad2 c.2.2

/-- Python truthiness of an environment read: set and non-empty. -/
def truthy : Option String → Bool
  | none => false
  | some s => s ≠ ""

/-- `compute_window` of `src/main.py`, with the environment reads
(`META_SINCE`, `META_UNTIL`), `LOOKBACK_DAYS` and `date.today()` passed as
parameters. If both overrides are truthy, validate and return them verbatim;
otherwise return the lookback default `(today - lookback, today - 1)`. -/
def compute_window (sinceEnv untilEnv : Option String) (lookbackDays : ℕ)
    (today : ℤ) : Except String (String × String) :=
  if truthy sinceEnv ∧ truthy untilEnv then
    match iso_date (sinceEnv.getD "") with
    | .error e => .error e
    | .ok s =>
      match iso_date (untilEnv.getD "") with
      | .error e => .error e
      | .ok u => .ok (s, u)
  else
    .ok (isoOfEpochDay (today - lookbackDays), isoOfEpochDay (today - 1))

/-- Query parameters of one GET request (values already stringified). -/
abbrev Params := List (String × String)

/-- The shape of an upstream response payload as the code reads it:
`payload.get("data", [])` and `payload.get("paging", {}).get("next")`. -/
structure Payload where
  data : List RawRecord
  next : Option String
deriving DecidableEq

/-- One HTTP response: status code, body parsed as JSON when possible
(`r.json()`), and the raw body text (`r.text`). -/
structure Response where
  status : ℕ
  body : Option Payload
  text : String
deriving DecidableEq

/-- Errors a fetch step can raise: `requests.HTTPError` from
`raise_for_status` (the spec's `UpstreamError`), or a JSON decode failure
from `r.json()` on a non-JSON body. -/
inductive MetaErr where
  | http : ℕ → MetaErr
  | jsonDecode : MetaErr
deriving DecidableEq

/-- Is this fetch outcome the spec's `UpstreamError`? -/
def isUpstreamErr : Except MetaErr Payload → Bool
  | .error (.http _) => true
  | _ => false

/-- `json.dumps(r.json(), indent=2)` for a parsed body (indentation and
escaping are not modelled; no claim inspects the rendering). -/
def dumpPayload (p : Payload) : String :=
  "\x7b\"data\": [" ++ String.intercalate ", " (p.data.map dumpRecord) ++ "], \"paging\": " ++
    (match p.next with
     | none => "\x7b\x7d"
     | some u => "\x7b\"next\": \"" ++ u ++ "\"\x7d") ++ "\x7d"

/-- The diagnostic body capture of `meta_get`: the body rendered as JSON if
it parses, else the raw text, truncated to 5000 characters. -/
def bodyCapture (r : Response) : String :=
  match r.body with
  | some p => (dumpPayload p).take 5000
  | none => r.text.take 5000

/-- `r.json()` as the final return of `meta_get`: the parsed body, or a
raised decode error when the body is not JSON. -/
def parseBody (r : Response) : Except MetaErr Payload :=
  match r.body with
  | some p => .ok p
  | none => .error .jsonDecode

/-- `meta_get` of `src/main.py` over an abstract HTTP world: perform the GET;
on status ≥ 400 print the diagnostics (URL, status, captured body) and call
`raise_for_status` — which raises `HTTPError` exactly for statuses in
400–599; then return `r.json()`. Result: the printed lines and the
raised-or-returned outcome. -/
def meta_get (world : String → Params → Response) (url : String) (ps : Params) :
    List String × Except MetaErr Payload :=
  let r := world url ps
  if 400 ≤ r.status then
    let log := ["Meta request failed.", "URL: " ++ url,
                "Status: " ++ toString r.status, "Body: " ++ bodyCapture r]
    if r.status < 600 then (log, .error (.http r.status)) else (log, parseBody r)
  else ([], parseBody r)

/-- `META_API_VERSION` default of `src/main.py`. -/
def META_API_VERSION : String := "v20.0"

/-- The field list requested by `fetch_campaign_daily`. -/
def insightsFields : List String :=
  ["date_start", "date_stop", "account_id", "campaign_id", "campaign_name",
   "objective", "reach", "impressions", "spend", "clicks", "ctr", "cpc", "cpm"]

/-- The initial query parameters built by `fetch_campaign_daily`
(`time_range` is `json.dumps` of the window; `breakdowns` added only when
the publisher-platform breakdown is enabled). -/
def insightsParams (access_token since untilS : String)
    (breakdown_publisher_platform : Bool) : Params :=
  [("access_token", access_token),
   ("level", "campaign"),
   ("time_increment", "1"),
   ("time_range", "\x7b\"since\": \"" ++ since ++ "\", \"until\": \"" ++ untilS ++ "\"\x7d"),
   ("fields", String.intercalate "," insightsFields),
   ("limit", "5000")] ++
  (if breakdown_publisher_platform then [("breakdowns", "publisher_platform")] else [])

/-- The insights endpoint for an ad account. -/
def insightsBaseUrl (ad_account_id : String) : String :=
  "https://graph.facebook.com/" ++ META_API_VERSION ++ "/act_" ++ ad_account_id ++ "/insights"

/-- The `while True` pagination loop of `fetch_campaign_daily`: GET the
current reference, append `data`, stop when `paging.next` is absent or empty
(Python falsiness), else follow it with empty parameters. `fuel` bounds the
number of iterations (the code has no such bound — an infinite cursor chain
hangs it — so `none` marks a run longer than `fuel`). Also records the
request log: one `(url, params)` entry per GET issued. -/
def fetchLoop (world : String → Params → Response) :
    ℕ → String → Params → List RawRecord → List (String × Params) →
    Option (List (String × Params) × Except MetaErr (List RawRecord))
  | 0, _, _, _, _ => none
  | fuel + 1, url, ps, acc, log =>
    match (meta_get world url ps).2 with
    | .error e => some (log ++ [(url, ps)], .error e)
    | .ok payload =>
      match payload.next with
      | none => some (log ++ [(url, ps)], .ok (acc ++ payload.data))
      | some nu =>
        if nu = "" then some (log ++ [(url, ps)], .ok (acc ++ payload.data))
        else fetchLoop world fuel nu [] (acc ++ payload.data) (log ++ [(url, ps)])

/-- `fetch_campaign_daily` of `src/main.py`: build the base URL and initial
parameters, then run the pagination loop. -/
def fetch_campaign_daily (world : String → Params → Response)
    (access_token ad_account_id since untilS : String)
    (breakdown_publisher_platform : Bool) (fuel : ℕ) :
    Option (List (String × Params) × Except MetaErr (List RawRecord)) :=
  fetchLoop world fuel (insightsBaseUrl ad_account_id)
    (insightsParams access_token since untilS breakdown_publisher_platform) [] []

/-- A successful HTTP response carrying payload `p`. -/
def okResp (p : Payload) : Response := { status := 200, body := some p, text := "" }

/-- `IsPageChain world urls ps pages`: querying `world` at the head URL with
parameters `ps` yields the first page, each page's `next` is the following
URL (a nonempty reference) queried with no parameters, and the last page has
no `next`. This is the claim's "finite chain of n pages". -/
def IsPageChain (world : String → Params → Response) :
    List String → Params → List Payload → Prop
  | [url], ps, [p] => world url ps = okResp p ∧ p.next = none
  | url :: u2 :: us, ps, p :: q :: rest =>
      world url ps = okResp p ∧ p.next = some u2 ∧ u2 ≠ "" ∧
      IsPageChain world (u2 :: us) [] (q :: rest)
  | _, _, _ => False

/-- The GET requests a chain gives rise to: the head URL with the initial
parameters, then each later URL with no parameters. -/
def chainReqs : List String → Params → List (String × Params)
  | [], _ => []
  | url :: rest, ps => (url, ps) :: chainReqs rest []

/-- Outcome of `insert_into_bigquery`: the chunks handed to the sink (one
entry per `insert_rows_json` call), the rows of the fully-successful batches
(which remain committed), the printed lines, and normal return versus the
raised `RuntimeError` (the spec's `LoadError`). The Python function returns
`None`; any count it reports is in the log. -/
structure LoadResult (α : Type) where
  calls : List (List α)
  committed : List α
  log : List String
  outcome : Except String Unit

/-- The chunking loop of `insert_into_bigquery`
(`for i in range(0, len(rows), 500)`), recursing on the rows left. The sink
is abstract: `sink i` is the row-level error list `insert_rows_json` reports
for the `i`-th call. On a non-empty error list: print the first five errors
(truncated) and raise, issuing no further calls. `fuel` is a recursion bound
only; `rows.length + 1` always suffices (each round consumes 500 rows). -/
def insertChunksLoop (sink : ℕ → List String) :
    ℕ → ℕ → List α → Option (LoadResult α)
  | 0, _, _ => none
  | _ + 1, _, [] => some ⟨[], [], [], .ok ()⟩
  | fuel + 1, i, row :: rows =>
    let chunk := (row :: rows).take 500
    let errors := sink i
    if errors = [] then
      match insertChunksLoop sink fuel (i + 1) ((row :: rows).drop 500) with
      | none => none
      | some rest =>
        some ⟨chunk :: rest.calls, chunk ++ rest.committed, rest.log, rest.outcome⟩
    else
      some ⟨[chunk], [],
            ["BigQuery insert errors (first 5): " ++
              (String.intercalate ", " (errors.take 5)).take 5000],
            .error "BigQuery insert failed (see logs for details)."⟩

/-- `insert_into_bigquery` of `src/main.py` (the BigQuery client abstracted
to `sink`): chunk the rows by 500, insert each chunk, abort on the first
errored batch; on full success print the inserted total. -/
def insert_into_bigquery (sink : ℕ → List String) (rows : List α) : LoadResult α :=
  match insertChunksLoop sink (rows.length + 1) 0 rows with
  | none => ⟨[], [], [], .error "unreachable: recursion bound exhausted"⟩
  | some r =>
    match r.outcome with
    | .ok _ => { r with log := r.log ++ ["Inserted " ++ toString r.committed.length ++ " rows"] }
    | .error _ => r

/-- `require_env` of `src/main.py`: a missing or empty value raises
`RuntimeError` (the spec's `ConfigError`). -/
def require_env (name : String) (v : Option String) : Except String String :=
  if truthy v then .ok (v.getD "") else .error ("Missing required env var: " ++ name)

/-- What one run of `main` did, as far as the driver claims observe it:
rows fetched, whether the loader was invoked at all, the sink calls it made,
the rows committed, and whether the run failed. -/
structure MainResult where
  fetchedCount : ℕ
  loaderInvoked : Bool
  sinkCalls : List (List BqRow)
  loadedCount : ℕ
  failed : Bool
deriving DecidableEq

/-- Did this step raise? -/
def exceptFailed : Except ε α → Bool
  | .error _ => true
  | .ok _ => false

namespace Pipeline

/-- `main` of `src/main.py`, over the abstract HTTP world and sink, with the
environment reads passed in (`tokenEnv`/`acctEnv` via `require_env`; the
BigQuery table coordinates only name the destination and are omitted).
Resolve the window, fetch (breakdown enabled), capture the ingestion
instant, normalize, and insert only when the normalized row list is
non-empty. `none` is fetch-loop fuel exhaustion; any raised error ends the
run with `failed := true`. -/
def main (world : String → Params → Response) (sink : ℕ → List String)
    (tokenEnv acctEnv sinceEnv untilEnv : Option String) (lookbackDays : ℕ)
    (today : ℤ) (load_ts : LoadInstant) (fuel : ℕ) : Option MainResult :=
  match require_env "META_ACCESS_TOKEN" tokenEnv, require_env "META_AD_ACCOUNT_ID" acctEnv with
  | .ok token, .ok acct =>
    match compute_window sinceEnv untilEnv lookbackDays today with
    | .error _ => some ⟨0, false, [], 0, true⟩
    | .ok su =>
      match fetch_campaign_daily world token acct su.1 su.2 true fuel with
      | none => none
      | some (_, .error _) => some ⟨0, false, [], 0, true⟩
      | some (_, .ok rows) =>
        let bq_rows := build_bq_rows rows load_ts
        if bq_rows = [] then some ⟨rows.length, false, [], 0, false⟩
        else
          let r := insert_into_bigquery sink bq_rows
          some ⟨rows.length, true, r.calls, r.committed.length, exceptFailed r.outcome⟩
  | _, _ => some ⟨0, false, [], 0, true⟩

end Pipeline

/-- A raw field is "nullish" as the code sees it: the key is absent, its
value is JSON `null` (both read back as Python `None`), or its value is the
empty string. -/
def pyNullish (o : Option PyPrim) : Prop := o = none ∨ o = some (PyPrim.str "")

/-- Concrete fixture: the raw record of the Row Normalizer example. -/
def c3record : RawRecord :=
  [("reach", .str "1500"), ("spend", .str "12.50"), ("ctr", .str ""), ("campaign_name", .null)]

/-- Concrete fixture: an ingestion instant. -/
def tsFix : LoadInstant := ⟨"2024-10-04T12:00:00+00:00", "2024-10-04"⟩

/-- Concrete fixture: page 1 of a 3-page chain. -/
def pageFix1 : Payload := ⟨[[("campaign_id", .str "a")], [("campaign_id", .str "b")]], some "u2"⟩

/-- Concrete fixture: page 2 of a 3-page chain. -/
def pageFix2 : Payload := ⟨[[("campaign_id", .str "c")]], some "u3"⟩

/-- Concrete fixture: page 3 of a 3-page chain (no further page). -/
def pageFix3 : Payload := ⟨[[("campaign_id", .str "d")]], none⟩

/-- Concrete fixture: an HTTP world serving the 3-page chain for account
`123` and failing every other URL. -/
def worldFix : String → Params → Response := fun url _ =>
  if url = insightsBaseUrl "123" then okResp pageFix1
  else if url = "u2" then okResp pageFix2
  else if url = "u3" then okResp pageFix3
  else ⟨500, none, "unexpected url"⟩

/-- Concrete fixture: an HTTP world whose every response is `404` with a
non-JSON body. -/
def world404 : String → Params → Response := fun _ _ => ⟨404, none, "not found"⟩

/-- Concrete fixture: an HTTP world returning one page with no data and no
next reference. -/
def worldEmptyFix : String → Params → Response := fun _ _ => okResp ⟨[], none⟩

/-- Concrete fixture: a sink that reports a row-level error on the second
batch call (call index 1) and accepts every other batch. -/
def sinkFailSecond : ℕ → List String := fun i => if i = 1 then ["row error"] else []

/-- Concrete fixture: a sink that accepts every batch. -/
def sinkOk : ℕ → List String := fun _ => []

/-! ## Helper lemmas -/

theorem build_bq_rows_foldl (load_ts : LoadInstant) :
    ∀ (rows : List RawRecord) (acc : List BqRow),
      rows.foldl (fun out r => out ++ [buildRow load_ts r]) acc =
        acc ++ rows.map (buildRow load_ts) := by
  intro rows
  induction rows with
  | nil => simp
  | cons r rest ih => intro acc; simp [List.foldl_cons, ih]

theorem build_bq_rows_eq_map (rows : List RawRecord) (load_ts : LoadInstant) :
    build_bq_rows rows load_ts = rows.map (buildRow load_ts) := by
  simpa [build_bq_rows] using build_bq_rows_foldl load_ts rows []

/-! ## C7 -/

/-- C7: the normalizer produces exactly one output row per input record, in
the same order (`build_bq_rows rows ts = rows.map (buildRow ts)`), with no
filtering, and every produced row carries the supplied instant as
`load_timestamp` and that instant's calendar date as `load_date`. -/
theorem C7_one_row_per_record (rows : List RawRecord) (load_ts : LoadInstant) :
    build_bq_rows rows load_ts = rows.map (buildRow load_ts) ∧
    (build_bq_rows rows load_ts).length = rows.length ∧
    ∀ b ∈ build_bq_rows rows load_ts,
      b.load_timestamp = load_ts.iso ∧ b.load_date = load_ts.dateIso := by
  refine ⟨build_bq_rows_eq_map rows load_ts, ?_, ?_⟩
  · rw [build_bq_rows_eq_map]; simp
  · intro b hb
    rw [build_bq_rows_eq_map] at hb
    obtain ⟨r, _, rfl⟩ := List.mem_map.mp hb
    exact ⟨rfl, rfl⟩

/-- Witness for C7 at a concrete record list and instant. -/
theorem C7_one_row_per_record_witness :
    build_bq_rows [c3record] tsFix = [buildRow tsFix c3record] ∧
    (buildRow tsFix c3record).load_timestamp = "2024-10-04T12:00:00+00:00" ∧
    (buildRow tsFix c3record).load_date = "2024-10-04" := by
  have h := C7_one_row_per_record [c3record] tsFix
  refine ⟨by simpa using h.1, ?_⟩
  have := h.2.2 (buildRow tsFix c3record) (by simp [h.1])
  simpa [tsFix] using this

/-! ## C3 -/

/-- C3: on the raw record `{"reach": "1500", "spend": "12.50", "ctr": "",
"campaign_name": null}` the normalizer yields `reach = 1500` (an integer,
obtained by float-parsing then truncation), `spend = "12.50"` unchanged,
`ctr = null`, `campaign_name = null`; in general a numeric string in an
integer column is parsed as a float and truncated, and a non-numeric value
in an integer or float column yields `null` (the failure is swallowed, these
coercers are total). -/
theorem C3_normalizer_example (load_ts : LoadInstant) :
    (buildRow load_ts c3record).reach = some 1500 ∧
    (buildRow load_ts c3record).spend = some "12.50" ∧
    (buildRow load_ts c3record).ctr = none ∧
    (buildRow load_ts c3record).campaign_name = none ∧
    (∀ s : String, s ≠ "" → ∀ q : ℚ, pyFloat s = some q →
      to_int (some (.str s)) = some (truncQ q)) ∧
    (∀ s : String, pyFloat s = none →
      to_int (some (.str s)) = none ∧ to_float (some (.str s)) = none) := by
  refine ⟨?_, ?_, ?_, ?_, ?_, ?_⟩
  · show to_int (pyGet c3record "reach") = some 1500
    decide
  · show to_str (pyGet c3record "spend") = some "12.50"
    decide
  · show to_float (pyGet c3record "ctr") = none
    decide
  · show to_str (pyGet c3record "campaign_name") = none
    decide
  · intro s hs q hq
    simp [to_int, hs, pyFloatOf, hq]
  · intro s hs
    by_cases h : s = "" <;> simp [to_int, to_float, h, pyFloatOf, hs]

/-- Witness for C3 at the concrete instant `tsFix` and the non-numeric
string `"abc"`. -/
theorem C3_normalizer_example_witness :
    (buildRow tsFix c3record).reach = some 1500 ∧
    to_int (some (.str "abc")) = none ∧ to_float (some (.str "abc")) = none := by
  have h := C3_normalizer_example tsFix
  exact ⟨h.1, h.2.2.2.2.2 "abc" (by decide)⟩

/-! ## C5 -/

/-- Counterexample to C5 as stated: in the record `{"date_start": ""}` the
raw `date_start` field is the empty string, yet the normalized `date_start`
column is the empty string passed through, not null — the code copies
`r.get("date_start")` without coercion. -/
theorem C5_counterexample :
    pyGet [("date_start", JVal.str "")] "date_start" = some (PyPrim.str "") ∧
    (buildRow tsFix [("date_start", JVal.str "")]).date_start = some (PyPrim.str "") ∧
    (buildRow tsFix [("date_start", JVal.str "")]).date_start ≠ none := by
  exact ⟨rfl, rfl, by decide⟩

/-- C5 as amended: for every raw record, an absent, null or empty-string raw
field normalizes to null in every coerced column (identifiers, objective,
publisher platform, the integer columns, the decimal-as-string columns and
the float column); the date range markers `date_start`/`date_stop` normalize
to null when the raw field is absent or null, but an empty-string raw value
is passed through unchanged. -/
theorem C5_amended (load_ts : LoadInstant) (r : RawRecord) :
    (pyNullish (pyGet r "account_id") → (buildRow load_ts r).account_id = none) ∧
    (pyNullish (pyGet r "campaign_id") → (buildRow load_ts r).campaign_id = none) ∧
    (pyNullish (pyGet r "campaign_name") → (buildRow load_ts r).campaign_name = none) ∧
    (pyNullish (pyGet r "objective") → (buildRow load_ts r).objective = none) ∧
    (pyNullish (pyGet r "publisher_platform") → (buildRow load_ts r).publisher_platform = none) ∧
    (pyNullish (pyGet r "reach") → (buildRow load_ts r).reach = none) ∧
    (pyNullish (pyGet r "impressions") → (buildRow load_ts r).impressions = none) ∧
    (pyNullish (pyGet r "clicks") → (buildRow load_ts r).clicks = none) ∧
    (pyNullish (pyGet r "spend") → (buildRow load_ts r).spend = none) ∧
    (pyNullish (pyGet r "ctr") → (buildRow load_ts r).ctr = none) ∧
    (pyNullish (pyGet r "cpc") → (buildRow load_ts r).cpc = none) ∧
    (pyNullish (pyGet r "cpm") → (buildRow load_ts r).cpm = none) ∧
    (pyGet r "date_start" = none → (buildRow load_ts r).date_start = none) ∧
    (pyGet r "date_stop" = none → (buildRow load_ts r).date_stop = none) ∧
    (pyGet r "date_start" = some (PyPrim.str "") →
      (buildRow load_ts r).date_start = some (PyPrim.str "")) := by
  refine ⟨?_, ?_, ?_, ?_, ?_, ?_, ?_, ?_, ?_, ?_, ?_, ?_, ?_, ?_, ?_⟩ <;>
    first
    | (rintro (h | h) <;> simp [buildRow, h, to_str, to_int, to_float, pyStr])
    | (intro h; simp [buildRow, h])

/-- Witness for C5 as amended, on a record carrying a null, an empty string
and an absent field. -/
theorem C5_amended_witness :
    (buildRow tsFix [("campaign_name", JVal.null), ("reach", JVal.str "")]).campaign_name = none ∧
    (buildRow tsFix [("campaign_name", JVal.null), ("reach", JVal.str "")]).reach = none ∧
    (buildRow tsFix [("campaign_name", JVal.null), ("reach", JVal.str "")]).date_start = none := by
  have h := C5_amended tsFix [("campaign_name", JVal.null), ("reach", JVal.str "")]
  exact ⟨h.2.2.1 (Or.inl (by decide)), h.2.2.2.2.2.1 (Or.inr (by decide)),
         h.2.2.2.2.2.2.2.2.2.2.2.2.1 (by decide)⟩

/-! ## C4 -/

/-- Counterexample to C4 as stated: `"abcd-ef-gh"` is not a syntactically
valid calendar date (no four-digit year, month or day digits), yet
`iso_date` accepts it — the code checks only length 10 and hyphens at
indices 4 and 7, never that the other characters are digits — so a run with
both overrides set to it starts with that window and raises nothing. -/
theorem C4_counterexample :
    specValidDate "abcd-ef-gh" = false ∧
    iso_date "abcd-ef-gh" = .ok "abcd-ef-gh" ∧
    compute_window (some "abcd-ef-gh") (some "abcd-ef-gh") 14 0 =
      .ok ("abcd-ef-gh", "abcd-ef-gh") := by
  refine ⟨by decide, rfl, rfl⟩

/-- C4 as amended: a supplied override pair fails with `ValidationError`
whenever either date fails the character-position test (length exactly 10
with hyphens at indices 4 and 7) — so `"2024/01/01"` and every string of
length ≠ 10 still raise — but a non-calendar string passing that positional
test is accepted. -/
theorem C4_amended (s u : String) (lb : ℕ) (today : ℤ)
    (hs : s ≠ "") (hu : u ≠ "")
    (hbad : posCheck s = false ∨ posCheck u = false) :
    ∃ msg, compute_window (some s) (some u) lb today = Except.error msg := by
  rcases hbad with h | h
  · exact ⟨"Expected date in YYYY-MM-DD format, got: " ++ s,
      by simp [compute_window, truthy, hs, hu, iso_date, h]⟩
  · by_cases hsp : posCheck s
    · exact ⟨"Expected date in YYYY-MM-DD format, got: " ++ u,
        by simp [compute_window, truthy, hs, hu, iso_date, h, hsp]⟩
    · exact ⟨"Expected date in YYYY-MM-DD format, got: " ++ s,
        by simp [compute_window, truthy, hs, hu, iso_date, hsp]⟩

/-- Witness for C4 as amended at the spec's example `"2024/01/01"`. -/
theorem C4_amended_witness :
    ∃ msg, compute_window (some "2024/01/01") (some "2024-01-02") 14 0 =
      Except.error msg :=
  C4_amended "2024/01/01" "2024-01-02" 14 0 (by decide) (by decide)
    (Or.inl (by decide))

/-! ## C8 -/

/-- C8: when both overrides are supplied and pass the format check, with
`since ≤ until`, the window resolver returns exactly that pair, verbatim. -/
theorem C8_window_verbatim (s u : String) (lb : ℕ) (today : ℤ)
    (hs : posCheck s = true) (hu : posCheck u = true) (_hle : s ≤ u) :
    compute_window (some s) (some u) lb today = .ok (s, u) := by
  have hs0 : s ≠ "" := by rintro rfl; simp [posCheck] at hs
  have hu0 : u ≠ "" := by rintro rfl; simp [posCheck] at hu
  simp [compute_window, truthy, hs0, hu0, iso_date, hs, hu]

/-- Witness for C8 at a concrete valid pair. -/
theorem C8_window_verbatim_witness :
    compute_window (some "2024-01-01") (some "2024-01-31") 14 20000 =
      .ok ("2024-01-01", "2024-01-31") :=
  C8_window_verbatim "2024-01-01" "2024-01-31" 14 20000 (by decide) (by decide)
    (String.le_iff_toList_le.mpr (by decide))

/-! ## C10 -/

/-- C10: when exactly one override is supplied (the other unset or empty),
`compute_window` ignores the supplied value — no format validation, no
error — and returns the default lookback window
`(today - lookback_days, today - 1)`. -/
theorem C10_one_sided_override (se ue : Option String) (lb : ℕ) (today : ℤ)
    (h : (truthy se = true ∧ truthy ue = false) ∨
         (truthy se = false ∧ truthy ue = true)) :
    compute_window se ue lb today =
      .ok (isoOfEpochDay (today - lb), isoOfEpochDay (today - 1)) := by
  rcases h with ⟨h1, h2⟩ | ⟨h1, h2⟩ <;> simp [compute_window, h1, h2]

/-- Witness for C10: a malformed since override with no until override is
ignored and the default window comes back. -/
theorem C10_one_sided_override_witness :
    compute_window (some "2024/01/01") none 14 20000 =
      .ok (isoOfEpochDay (20000 - 14), isoOfEpochDay (20000 - 1)) :=
  C10_one_sided_override (some "2024/01/01") none 14 20000
    (Or.inl ⟨by decide, by decide⟩)

/-! ## C6 -/

/-- C6: for every HTTP response (statuses in the valid HTTP range, below
600), the fetch step raises `UpstreamError` exactly when the status is
≥ 400; in that case the printed diagnostics include the captured body
(parsed as JSON if possible, else raw text, truncated to 5000 characters)
and the raised error carries the status; for a status < 400 nothing is
printed and the parsed JSON payload is returned. -/
theorem C6_upstream_error (world : String → Params → Response) (url : String)
    (ps : Params) (hstatus : (world url ps).status < 600) :
    (isUpstreamErr (meta_get world url ps).2 = true ↔ 400 ≤ (world url ps).status) ∧
    (400 ≤ (world url ps).status →
      ("Body: " ++ bodyCapture (world url ps)) ∈ (meta_get world url ps).1 ∧
      (meta_get world url ps).2 = .error (.http (world url ps).status)) ∧
    ((world url ps).status < 400 →
      (meta_get world url ps).1 = [] ∧
      ∀ p, (world url ps).body = some p → (meta_get world url ps).2 = .ok p) := by
  by_cases h4 : 400 ≤ (world url ps).status
  · refine ⟨?_, fun _ => ⟨?_, ?_⟩, fun hlt => absurd h4 (by omega)⟩ <;>
      simp [meta_get, h4, hstatus, isUpstreamErr]
  · refine ⟨?_, fun h => absurd h h4, fun _ => ⟨?_, ?_⟩⟩
    · simp only [meta_get, if_neg h4]
      constructor
      · intro hup
        cases hb : (world url ps).body <;> simp [parseBody, hb, isUpstreamErr] at hup
      · intro h; exact absurd h h4
    · simp [meta_get, h4]
    · intro p hp; simp [meta_get, h4, parseBody, hp]

/-- Witness for C6: a 404 with a non-JSON body raises `UpstreamError` with
the text body captured in the diagnostics, and a 200 carrying a payload
returns it. -/
theorem C6_upstream_error_witness :
    isUpstreamErr (meta_get world404 "u" []).2 = true ∧
    ("Body: " ++ bodyCapture (world404 "u" [])) ∈ (meta_get world404 "u" []).1 ∧
    (meta_get worldEmptyFix "u" []).2 = .ok ⟨[], none⟩ := by
  have h404 := C6_upstream_error world404 "u" [] (by decide)
  have h200 := C6_upstream_error worldEmptyFix "u" [] (by decide)
  exact ⟨h404.1.mpr (by decide), (h404.2.1 (by decide)).1,
         (h200.2.2 (by decide)).2 ⟨[], none⟩ rfl⟩

/-! ## C1 -/

theorem chainReqs_length : ∀ (urls : List String) (ps : Params),
    (chainReqs urls ps).length = urls.length := by
  intro urls
  induction urls with
  | nil => intro ps; rfl
  | cons u rest ih => intro ps; simp [chainReqs, ih]

theorem isPageChain_length (world : String → Params → Response) :
    ∀ (pages : List Payload) (urls : List String) (ps : Params),
      IsPageChain world urls ps pages → urls.length = pages.length := by
  intro pages
  induction pages with
  | nil =>
    intro urls ps h
    exact absurd h (by
      cases urls with
      | nil => simp [IsPageChain]
      | cons u rest => cases rest <;> simp [IsPageChain])
  | cons p rest ih =>
    intro urls ps h
    cases urls with
    | nil => exact absurd h (by cases rest <;> simp [IsPageChain])
    | cons u us =>
      cases us with
      | nil =>
        cases rest with
        | nil => rfl
        | cons q r2 => exact absurd h (by simp [IsPageChain])
      | cons u2 us2 =>
        cases rest with
        | nil => exact absurd h (by simp [IsPageChain])
        | cons q r2 =>
          obtain ⟨_, _, _, hch⟩ := h
          have := ih (u2 :: us2) [] hch
          simp only [List.length_cons] at this ⊢
          omega

theorem fetchLoop_chain (world : String → Params → Response) :
    ∀ (pages : List Payload) (url : String) (urls : List String) (ps : Params)
      (acc : List RawRecord) (log : List (String × Params)) (fuel : ℕ),
      IsPageChain world (url :: urls) ps pages → pages.length ≤ fuel →
      fetchLoop world fuel url ps acc log =
        some (log ++ chainReqs (url :: urls) ps,
              .ok (acc ++ (pages.map Payload.data).flatten)) := by
  intro pages
  induction pages with
  | nil =>
    intro url urls ps acc log fuel h _
    exact absurd h (by cases urls <;> simp [IsPageChain])
  | cons p rest ih =>
    intro url urls ps acc log fuel h hf
    obtain ⟨f, rfl⟩ : ∃ f, fuel = f + 1 := by
      cases fuel with
      | zero => simp at hf
      | succ f => exact ⟨f, rfl⟩
    cases urls with
    | nil =>
      cases rest with
      | nil =>
        obtain ⟨hw, hn⟩ := h
        simp [fetchLoop, meta_get, hw, okResp, parseBody, hn, chainReqs]
      | cons q r2 => exact absurd h (by simp [IsPageChain])
    | cons u2 us =>
      cases rest with
      | nil => exact absurd h (by simp [IsPageChain])
      | cons q r2 =>
        obtain ⟨hw, hn, hne, hch⟩ := h
        have hrec := ih u2 us [] (acc ++ p.data) (log ++ [(url, ps)]) f hch
          (by simp only [List.length_cons] at hf ⊢; omega)
        simp [fetchLoop, meta_get, hw, okResp, parseBody, hn, hne, hrec, chainReqs,
              List.append_assoc]

/-- C1: for every finite chain of `n` pages served by the HTTP world — each
page but the last carrying a nonempty "next" reference, the last carrying
none — the fetcher returns exactly the concatenation of all pages' `data`
lists in page order, and its request log is `chainReqs`: exactly `n` GET
requests, the first against the insights endpoint with the built
parameters, each follow-up against the prior page's "next" reference with
no additional parameters. -/
theorem C1_pagination (world : String → Params → Response)
    (access_token ad_account_id since untilS : String) (breakdown : Bool)
    (urls : List String) (pages : List Payload) (fuel : ℕ)
    (hchain : IsPageChain world (insightsBaseUrl ad_account_id :: urls)
      (insightsParams access_token since untilS breakdown) pages)
    (hfuel : pages.length ≤ fuel) :
    fetch_campaign_daily world access_token ad_account_id since untilS breakdown fuel =
      some (chainReqs (insightsBaseUrl ad_account_id :: urls)
              (insightsParams access_token since untilS breakdown),
            .ok ((pages.map Payload.data).flatten)) ∧
    (chainReqs (insightsBaseUrl ad_account_id :: urls)
        (insightsParams access_token since untilS breakdown)).length = pages.length := by
  constructor
  · have h := fetchLoop_chain world pages (insightsBaseUrl ad_account_id) urls
      (insightsParams access_token since untilS breakdown) [] [] fuel hchain hfuel
    simpa [fetch_campaign_daily] using h
  · rw [chainReqs_length]
    exact isPageChain_length world pages _ _ hchain

/-- Witness for C1 on the concrete 3-page chain of `worldFix`. -/
theorem C1_pagination_witness :
    IsPageChain worldFix
      (insightsBaseUrl "123" :: ["u2", "u3"])
      (insightsParams "tok" "2024-01-01" "2024-01-31" true)
      [pageFix1, pageFix2, pageFix3] ∧
    fetch_campaign_daily worldFix "tok" "123" "2024-01-01" "2024-01-31" true 3 =
      some (chainReqs (insightsBaseUrl "123" :: ["u2", "u3"])
              (insightsParams "tok" "2024-01-01" "2024-01-31" true),
            .ok (([pageFix1, pageFix2, pageFix3].map Payload.data).flatten)) := by
  have hch : IsPageChain worldFix
      (insightsBaseUrl "123" :: ["u2", "u3"])
      (insightsParams "tok" "2024-01-01" "2024-01-31" true)
      [pageFix1, pageFix2, pageFix3] := by
    refine ⟨by decide, by decide, by decide, by decide, by decide, by decide,
      by decide, by decide⟩
  exact ⟨hch, (C1_pagination worldFix "tok" "123" "2024-01-01" "2024-01-31" true
    ["u2", "u3"] [pageFix1, pageFix2, pageFix3] 3 hch (by decide)).1⟩

/-! ## C2 -/

theorem insertChunksLoop_nil (sink : ℕ → List String) (fuel i : ℕ) :
    insertChunksLoop (α := α) sink (fuel + 1) i [] = some ⟨[], [], [], .ok ()⟩ := rfl

theorem insertChunksLoop_cons_ok (sink : ℕ → List String) (fuel i : ℕ)
    (rows : List α) (hne : rows ≠ []) (he : sink i = []) :
    insertChunksLoop sink (fuel + 1) i rows =
      match insertChunksLoop sink fuel (i + 1) (rows.drop 500) with
      | none => none
      | some rest => some ⟨rows.take 500 :: rest.calls, rows.take 500 ++ rest.committed,
                           rest.log, rest.outcome⟩ := by
  cases rows with
  | nil => exact absurd rfl hne
  | cons a l => simp [insertChunksLoop, he]

theorem insertChunksLoop_cons_err (sink : ℕ → List String) (fuel i : ℕ)
    (rows : List α) (hne : rows ≠ []) (he : ¬ sink i = []) :
    insertChunksLoop sink (fuel + 1) i rows =
      some ⟨[rows.take 500], [],
            ["BigQuery insert errors (first 5): " ++
              (String.intercalate ", " ((sink i).take 5)).take 5000],
            .error "BigQuery insert failed (see logs for details)."⟩ := by
  cases rows with
  | nil => exact absurd rfl hne
  | cons a l => simp [insertChunksLoop, he]

set_option maxRecDepth 10000 in
/-- Counterexample to C2 as stated: with 1200 rows and the second batch
reporting sink errors, the loader raises `RuntimeError` (the spec's
`LoadError`) — it returns no committed count at all (the Python function
returns `None` even on success); the count 500 describes the rows of the
first batch, which do remain committed. -/
theorem C2_counterexample :
    (insert_into_bigquery sinkFailSecond (List.range 1200)).outcome =
      .error "BigQuery insert failed (see logs for details)." ∧
    exceptFailed (insert_into_bigquery sinkFailSecond (List.range 1200)).outcome = true ∧
    (insert_into_bigquery sinkFailSecond (List.range 1200)).calls.map List.length =
      [500, 500] ∧
    (insert_into_bigquery sinkFailSecond (List.range 1200)).committed.length = 500 := by
  exact ⟨rfl, rfl, rfl, rfl⟩

/-- C2 as amended: for every input of 1200 rows with batch size 500 — if
every batch succeeds, exactly 3 batch-insert calls occur with sizes
500, 500, 200, their concatenation is the input in order, all 1200 rows are
committed, the loader returns normally and logs the committed total (the
function returns no value; the count is only logged). If the second batch
reports sink errors, no third batch call occurs, the 500 rows of the first
batch remain committed, and the loader raises `LoadError` instead of
returning. -/
theorem C2_amended (sink : ℕ → List String) (rows : List α)
    (hlen : rows.length = 1200) :
    ((∀ i, sink i = []) →
      (insert_into_bigquery sink rows).calls.map List.length = [500, 500, 200] ∧
      (insert_into_bigquery sink rows).calls.flatten = rows ∧
      (insert_into_bigquery sink rows).committed = rows ∧
      (insert_into_bigquery sink rows).outcome = .ok () ∧
      (insert_into_bigquery sink rows).log = ["Inserted 1200 rows"]) ∧
    (sink 0 = [] → ¬ sink 1 = [] →
      (insert_into_bigquery sink rows).calls.map List.length = [500, 500] ∧
      (insert_into_bigquery sink rows).committed = rows.take 500 ∧
      (insert_into_bigquery sink rows).committed.length = 500 ∧
      (insert_into_bigquery sink rows).outcome =
        .error "BigQuery insert failed (see logs for details).") := by
  have hne0 : rows ≠ [] := by
    intro h; rw [h] at hlen; simp at hlen
  have hd1len : (rows.drop 500).length = 700 := by
    rw [List.length_drop, hlen]
  have hne1 : rows.drop 500 ≠ [] := by
    apply List.length_pos.mp; omega
  have hdd1 : (rows.drop 500).drop 500 = rows.drop 1000 := by
    rw [List.drop_drop]
  have hd2len : (rows.drop 1000).length = 200 := by
    rw [List.length_drop, hlen]
  have hne2 : rows.drop 1000 ≠ [] := by
    apply List.length_pos.mp; omega
  have hd3 : (rows.drop 1000).drop 500 = [] :=
    List.drop_eq_nil_of_le (by omega)
  have hc1len : (rows.take 500).length = 500 := by
    rw [List.length_take, hlen]; omega
  have hc2len : ((rows.drop 500).take 500).length = 500 := by
    rw [List.length_take, hd1len]; omega
  have hc3 : (rows.drop 1000).take 500 = rows.drop 1000 :=
    List.take_of_length_le (by omega)
  have hsplit2 : (rows.drop 500).take 500 ++ rows.drop 1000 = rows.drop 500 := by
    rw [← hdd1, List.take_append_drop]
  have hsplit : rows.take 500 ++ ((rows.drop 500).take 500 ++ rows.drop 1000) = rows := by
    rw [hsplit2, List.take_append_drop]
  have hlen1 : rows.length + 1 = 1200 + 1 := by omega
  constructor
  · intro hok
    have e3 : insertChunksLoop sink 1198 3 ((rows.drop 1000).drop 500) =
        some ⟨[], [], [], .ok ()⟩ := by
      rw [hd3]
      have h := insertChunksLoop_nil (α := α) sink 1197 3
      norm_num at h
      exact h
    have e2 : insertChunksLoop sink 1199 2 (rows.drop 1000) =
        some ⟨[rows.drop 1000], rows.drop 1000, [], .ok ()⟩ := by
      have h := insertChunksLoop_cons_ok sink 1198 2 (rows.drop 1000) hne2 (hok 2)
      rw [e3] at h
      norm_num [hc3] at h
      exact h
    have e1 : insertChunksLoop sink 1200 1 (rows.drop 500) =
        some ⟨[(rows.drop 500).take 500, rows.drop 1000],
              (rows.drop 500).take 500 ++ rows.drop 1000, [], .ok ()⟩ := by
      have h := insertChunksLoop_cons_ok sink 1199 1 (rows.drop 500) hne1 (hok 1)
      rw [hdd1, e2] at h
      norm_num at h
      exact h
    have e0 : insertChunksLoop sink (1200 + 1) 0 rows =
        some ⟨[rows.take 500, (rows.drop 500).take 500, rows.drop 1000],
              rows.take 500 ++ ((rows.drop 500).take 500 ++ rows.drop 1000),
              [], .ok ()⟩ := by
      have h := insertChunksLoop_cons_ok sink 1200 0 rows hne0 (hok 0)
      rw [e1] at h
      norm_num at h
      exact h
    have efin : insert_into_bigquery sink rows =
        ⟨[rows.take 500, (rows.drop 500).take 500, rows.drop 1000],
         rows, ["Inserted 1200 rows"], .ok ()⟩ := by
      rw [insert_into_bigquery, hlen1, e0]
      simp only [hsplit, hlen]
      rfl
    rw [efin]
    refine ⟨?_, ?_, rfl, rfl, rfl⟩
    · simp [hc1len, hc2len, hd2len]
    · simpa using hsplit
  · intro h0 h1
    have e1 : insertChunksLoop sink 1200 1 (rows.drop 500) =
        some ⟨[(rows.drop 500).take 500], [],
              ["BigQuery insert errors (first 5): " ++
                (String.intercalate ", " ((sink 1).take 5)).take 5000],
              .error "BigQuery insert failed (see logs for details)."⟩ := by
      have h := insertChunksLoop_cons_err sink 1199 1 (rows.drop 500) hne1 h1
      norm_num at h
      exact h
    have e0 : insertChunksLoop sink (1200 + 1) 0 rows =
        some ⟨[rows.take 500, (rows.drop 500).take 500], rows.take 500,
              ["BigQuery insert errors (first 5): " ++
                (String.intercalate ", " ((sink 1).take 5)).take 5000],
              .error "BigQuery insert failed (see logs for details)."⟩ := by
      have h := insertChunksLoop_cons_ok sink 1200 0 rows hne0 h0
      rw [e1] at h
      norm_num at h
      exact h
    have efin : insert_into_bigquery sink rows =
        ⟨[rows.take 500, (rows.drop 500).take 500], rows.take 500,
         ["BigQuery insert errors (first 5): " ++
           (String.intercalate ", " ((sink 1).take 5)).take 5000],
         .error "BigQuery insert failed (see logs for details)."⟩ := by
      rw [insert_into_bigquery, hlen1, e0]
    rw [efin]
    exact ⟨by simp [hc1len, hc2len], rfl, hc1len, rfl⟩

set_option maxRecDepth 10000 in
/-- Witness for C2 as amended: both branches at the 1200-row list
`List.range 1200`, with an all-accepting sink and with a sink failing the
second batch. -/
theorem C2_amended_witness :
    ((insert_into_bigquery sinkOk (List.range 1200)).calls.map List.length =
        [500, 500, 200] ∧
      (insert_into_bigquery sinkOk (List.range 1200)).committed = List.range 1200 ∧
      (insert_into_bigquery sinkOk (List.range 1200)).outcome = .ok ()) ∧
    ((insert_into_bigquery sinkFailSecond (List.range 1200)).calls.map List.length =
        [500, 500] ∧
      (insert_into_bigquery sinkFailSecond (List.range 1200)).committed.length = 500) := by
  have hok := (C2_amended sinkOk (List.range 1200) (by simp)).1 (fun _ => rfl)
  have hfail := (C2_amended sinkFailSecond (List.range 1200) (by simp)).2 rfl (by decide)
  exact ⟨⟨hok.1, hok.2.2.1, hok.2.2.2.1⟩, ⟨hfail.1, hfail.2.2.1⟩⟩

/-! ## C9 -/

/-- C9: whenever a run of the driver completes with zero fetched records,
it short-circuits — the loader is never invoked, no sink call is made, and
the reported loaded count is 0. -/
theorem C9_empty_fetch_short_circuit
    (world : String → Params → Response) (sink : ℕ → List String)
    (tokenEnv acctEnv sinceEnv untilEnv : Option String) (lookbackDays : ℕ)
    (today : ℤ) (load_ts : LoadInstant) (fuel : ℕ) (res : MainResult)
    (h : Pipeline.main world sink tokenEnv acctEnv sinceEnv untilEnv lookbackDays
      today load_ts fuel = some res)
    (hz : res.fetchedCount = 0) :
    res.loaderInvoked = false ∧ res.sinkCalls = [] ∧ res.loadedCount = 0 := by
  simp only [Pipeline.main] at h
  split at h
  all_goals try (cases h; exact ⟨rfl, rfl, rfl⟩)
  split at h
  all_goals try (cases h; exact ⟨rfl, rfl, rfl⟩)
  split at h
  · exact Option.noConfusion h
  · cases h; exact ⟨rfl, rfl, rfl⟩
  · next fst rows hfetch =>
    split at h
    · cases h; exact ⟨rfl, rfl, rfl⟩
    · next hbq =>
      cases h
      simp only at hz
      have hrows : rows = [] := List.length_eq_zero.mp hz
      rw [hrows] at hbq
      exact absurd rfl hbq

/-- Witness for C9: a run whose single fetched page has an empty `data`
list completes with zero fetched records, no loader invocation, no sink
calls and a loaded count of 0. -/
theorem C9_empty_fetch_short_circuit_witness :
    ∃ res : MainResult,
      Pipeline.main worldEmptyFix sinkOk (some "t") (some "a") none none 14 20000
        tsFix 5 = some res ∧
      res.fetchedCount = 0 ∧ res.loaderInvoked = false ∧ res.sinkCalls = [] ∧
      res.loadedCount = 0 := by
  have hmain : Pipeline.main worldEmptyFix sinkOk (some "t") (some "a") none none 14
      20000 tsFix 5 = some ⟨0, false, [], 0, false⟩ := by decide
  have hc := C9_empty_fetch_short_circuit worldEmptyFix sinkOk (some "t") (some "a")
    none none 14 20000 tsFix 5 ⟨0, false, [], 0, false⟩ hmain rfl
  exact ⟨⟨0, false, [], 0, false⟩, hmain, rfl, hc.1, hc.2.1, hc.2.2⟩
